import Mathlib

/-!
Verification development for the render core of the `alkahest` repository.

The definitions below are a shallow embedding of the relevant parts of the
source code:

* `crates/alkahest-renderer/src/renderer/shadows.rs`
  (`Renderer::update_shadow_maps`, `ShadowQuality`),
* `crates/alkahest-renderer/src/renderer/gbuffer.rs`
  (`GBuffer::create`/`resize`, `GBuffer::get_postprocess_rt`,
  `GBuffer::depth_buffer_read`, `RenderTarget::create`, `DepthState::create`,
  `CpuStagingBuffer`),
* `crates/alkahest-renderer/src/ecs/render/dynamic_geometry.rs`
  (`DynamicModel::get_variant_technique`, `DynamicModel::draw_wrapped`).

Stateful Rust code becomes explicit state passing, machine integers become
`Nat` (the `u16` sentinel `u16::MAX` becomes the literal `65535`), fallible
or panicking code returns `Except`/`Option`, and GPU side effects are
recorded as explicit event traces.
-/

set_option maxHeartbeats 1000000

namespace Alkahest



/-! ## Shadow-update scheduler (`renderer/shadows.rs`) -/

/-- Mirrors `enum ShadowQuality` from `renderer/shadows.rs`. -/
inductive ShadowQuality
  | Off
  | Lowest
  | Low
  | Medium
  | High
  | Highest
deriving DecidableEq

/-- The subset of the renderer settings consulted by `update_shadow_maps` and
`DynamicModel::draw_wrapped` (fields of `RendererSettings` in the source). -/
structure RendererSettings where
  shadow_quality : ShadowQuality
  matcap : Bool
  shadow_updates_per_frame : Nat
  stage_transparent : Bool
  stage_decals : Bool
  stage_decals_additive : Bool
deriving DecidableEq

/-- One shadow-casting light entity as seen by `update_shadow_maps`: the
entity id, the `ShadowMapRenderer` component state (`last_update`,
`stationary_needs_update`) and the outcome of the `view_vis.is_visible(0)`
test on its optional `ViewVisibility` component. -/
structure ShadowLight where
  id : Nat
  last_update : Nat
  stationary_needs_update : Bool
  visible : Bool
deriving DecidableEq

/-- Mirrors `enum ShadowGenerationMode` (used by the scheduler loop). -/
inductive ShadowGenerationMode
  | StationaryOnly
  | MovingOnly
deriving DecidableEq

/-- Modelled from the spec: `ShadowMapRenderer::bind_for_generation` lives in
`ecs/render/light.rs`, which is not part of the sources provided.  Per the
spec's state machine ("selected-and-stationary-dirty-and-assets-ready →
regenerate stationary, clear dirty bit"), regenerating the stationary
contribution clears the `stationary_needs_update` flag; the moving pass does
not touch the scheduler-visible state. -/
def bind_for_generation (l : ShadowLight) (mode : ShadowGenerationMode) :
    ShadowLight :=
  match mode with
  | .StationaryOnly => { l with stationary_needs_update := false }
  | .MovingOnly => l

/-- The body of the `for (e, _) in shadow_renderers` loop of
`update_shadow_maps`, acting on one selected light: set
`last_update = current_frame`, then, if `stationary_needs_update`, run the
stationary generation pass and re-set the flag when the asset manager is not
idle, and finally run the moving generation pass. -/
def run_selected_light (frame : Nat) (idle : Bool) (l : ShadowLight) :
    ShadowLight :=
  let l1 : ShadowLight := { l with last_update := frame }
  let l2 : ShadowLight :=
    if l1.stationary_needs_update then
      let ls := bind_for_generation l1 .StationaryOnly
      if !idle then { ls with stationary_needs_update := true } else ls
    else l1
  bind_for_generation l2 .MovingOnly

/-- The collection loop of `update_shadow_maps`: a light is pushed onto
`shadow_renderers` when it is visible in view 0 or the asset manager is not
idle. -/
def collect_shadow_renderers (idle : Bool) (lights : List ShadowLight) :
    List ShadowLight :=
  lights.filter (fun l => l.visible || !idle)

/-- The sort key comparison of `sort_by_key(|(_, last_update)| *last_update)`
(Rust's slice sort is stable; `List.mergeSort` is the stable sort here). -/
def shadowLE (a b : ShadowLight) : Bool :=
  a.last_update ≤ b.last_update

/-- The lights selected for an update this frame: collect, stable-sort
ascending by `last_update`, truncate to `shadow_updates_per_frame`. -/
def scheduled_shadow_lights (settings : RendererSettings) (idle : Bool)
    (lights : List ShadowLight) : List ShadowLight :=
  ((collect_shadow_renderers idle lights).mergeSort shadowLE).take
    settings.shadow_updates_per_frame

/-- Mirrors `Renderer::update_shadow_maps`, as a function on the scheduler-visible
state of all shadow lights.  `frame` is `self.frame_index`, `idle` is
`self.data.lock().asset_manager.is_idle()`.  The per-entity mutation of the
source loop becomes a map over the scene guarded by membership of the
entity id in the selected set. -/
def update_shadow_maps (settings : RendererSettings) (frame : Nat)
    (idle : Bool) (lights : List ShadowLight) : List ShadowLight :=
  if settings.shadow_quality = .Off ∨ settings.matcap = true then lights
  else
    let selected := (scheduled_shadow_lights settings idle lights).map (·.id)
    lights.map (fun l =>
      if l.id ∈ selected then run_selected_light frame idle l else l)

/-- A light `y` (at collection position `j`) is scheduled strictly before a
light `x` (at collection position `i`) when its `last_update` is smaller, or
equal with `j` earlier in the original collection order. -/
def shadow_beats (j : Nat) (y : ShadowLight) (i : Nat) (x : ShadowLight) :
    Prop :=
  y.last_update < x.last_update ∨ (y.last_update = x.last_update ∧ j < i)

instance (j : Nat) (y : ShadowLight) (i : Nat) (x : ShadowLight) :
    Decidable (shadow_beats j y i x) := by
  unfold shadow_beats
  infer_instance

/-- The number of lights that are scheduled strictly before the light at
position `i` (value `x`): smaller `last_update`, or equal `last_update` and
an earlier position in the collection order. -/
def shadow_rank (lights : List ShadowLight) (i : Nat) (x : ShadowLight) :
    Nat :=
  lights.enum.countP (fun p => decide (shadow_beats p.1 p.2 i x))

/-! ## G-buffer resource manager (`renderer/gbuffer.rs`) -/

/-- Mirrors `enum PingPong` from `renderer/gbuffer.rs`. -/
inductive PingPong
  | Ping
  | Pong
deriving DecidableEq

/-- Mirrors `PingPong::next`. -/
def PingPong.next : PingPong → PingPong
  | .Ping => .Pong
  | .Pong => .Ping

/-- The post-process part of the `GBuffer` state: the two render targets are
represented by the identity of their underlying GPU texture resource (a
`Nat`), together with the atomically tracked parity flag. -/
structure GBufferPostprocess where
  postprocess_ping : Nat
  postprocess_pong : Nat
  postprocess_pingpong : PingPong
deriving DecidableEq

/-- Mirrors `GBuffer::get_postprocess_rt`: returns the (source, target) pair for the
current parity and, when `swap_after_use` is set, flips the parity for the
next caller.  The `assert_ne!(&r.0.texture, &r.1.texture)` of the source is
modelled by returning `none` (a panic) when the two resources alias. -/
def get_postprocess_rt (g : GBufferPostprocess) (swap_after_use : Bool) :
    Option ((Nat × Nat) × GBufferPostprocess) :=
  let current_pingpong := g.postprocess_pingpong
  let r : Nat × Nat :=
    match current_pingpong with
    | .Ping => (g.postprocess_ping, g.postprocess_pong)
    | .Pong => (g.postprocess_pong, g.postprocess_ping)
  if r.1 = r.2 then none
  else
    some (r,
      if swap_after_use then
        { g with postprocess_pingpong := current_pingpong.next }
      else g)

/-- Mirrors `GBuffer::get_postprocess_output`: the target last written for the
current parity. -/
def get_postprocess_output (g : GBufferPostprocess) : Nat :=
  match g.postprocess_pingpong with
  | .Ping => g.postprocess_ping
  | .Pong => g.postprocess_pong

/-- The ping and pong targets of a freshly created `GBuffer` are two separate
`RenderTarget::create` results, hence distinct texture resources; `create`
starts with parity `Ping`.  (Resource ids 0 and 1 stand for the two
allocations.) -/
def gbuffer_create_postprocess : GBufferPostprocess :=
  { postprocess_ping := 0, postprocess_pong := 1,
    postprocess_pingpong := .Ping }

/-- One GPU surface allocation request issued during `GBuffer::create` or
`GBuffer::resize`: the final width/height passed to `CreateTexture2D`, and
whether a zero-size clamp diagnostic (`warn!`) was emitted for it. -/
structure AllocRequest where
  width : Nat
  height : Nat
  warned : Bool
deriving DecidableEq

/-- The size/diagnostic behaviour of `RenderTarget::create`: a zero
dimension is clamped to 1×1 with a warning. -/
def render_target_create (size : Nat × Nat) : AllocRequest :=
  if size.1 = 0 ∨ size.2 = 0 then ⟨1, 1, true⟩ else ⟨size.1, size.2, false⟩

/-- The size/diagnostic behaviour of `DepthState::create`: a zero dimension
is clamped to 4×4 with a warning (the warning text says 1×1, the code uses
`(4, 4)`). -/
def depth_state_create (size : Nat × Nat) : AllocRequest :=
  if size.1 = 0 ∨ size.2 = 0 then ⟨4, 4, true⟩ else ⟨size.1, size.2, false⟩

/-- The size behaviour of `CpuStagingBuffer::create`: no clamp, no
diagnostic. -/
def cpu_staging_buffer_create (size : Nat × Nat) : AllocRequest :=
  ⟨size.1, size.2, false⟩

/-- The sequence of surface allocations performed by `GBuffer::create(size)`,
in source order, after the function's own top-level clamp of a zero-sized
input to (1, 1). -/
def gbuffer_create_allocations (size : Nat × Nat) : List AllocRequest :=
  let size := if size.1 = 0 ∨ size.2 = 0 then ((1 : Nat), (1 : Nat)) else size
  [render_target_create size,
    render_target_create size,
    render_target_create size,
    render_target_create size,
    render_target_create size,
    render_target_create size,
    render_target_create size,
    render_target_create size,
    render_target_create size,
    render_target_create size,
    depth_state_create size,
    cpu_staging_buffer_create size,
    render_target_create size,
    render_target_create (size.1 / 4, size.2 / 4),
    render_target_create (size.1 / 4, size.2 / 4),
    render_target_create (512, 512),
    render_target_create size,
    render_target_create size]

/-- The sequence of surface allocations performed by
`GBuffer::resize(new_size)`, in source order (each `resize` is a full
recreation through the corresponding `create`), after the top-level clamp. -/
def gbuffer_resize_allocations (new_size : Nat × Nat) : List AllocRequest :=
  let new_size :=
    if new_size.1 = 0 ∨ new_size.2 = 0 then ((1 : Nat), (1 : Nat))
    else new_size
  [render_target_create new_size,
    render_target_create new_size,
    render_target_create new_size,
    render_target_create new_size,
    render_target_create new_size,
    render_target_create new_size,
    render_target_create new_size,
    render_target_create new_size,
    render_target_create new_size,
    render_target_create new_size,
    depth_state_create new_size,
    cpu_staging_buffer_create new_size,
    render_target_create (new_size.1 / 4, new_size.2 / 4),
    render_target_create (new_size.1 / 4, new_size.2 / 4),
    render_target_create new_size,
    render_target_create new_size,
    render_target_create new_size]

/-- Mirrors `CpuStagingBuffer::map`: mapping the staging texture for CPU access can
fail; `none` contents model a failed `Map` call, in which case the closure
is never run and the error is returned.  Texel values are modelled as
rationals (standing in for the raw `f32` read). -/
def cpu_staging_map {β : Type} (contents : Option (Nat → Nat → Rat))
    (f : (Nat → Nat → Rat) → β) : Except Unit β :=
  match contents with
  | none => .error ()
  | some data => .ok (f data)

/-- The part of the `GBuffer` state consulted by `depth_buffer_read`: the
mappable contents of `depth_staging` (texel lookup by coordinates, `none` if
mapping fails) and `current_size`. -/
structure GBufferDepthStaging where
  depth_staging : Option (Nat → Nat → Rat)
  current_size : Nat × Nat

/-- Mirrors `GBuffer::depth_buffer_read(x, y)`: map the staging buffer, read the
texel at `(x, y)`, and return 0.0 (`unwrap_or(0.0)`) when mapping failed. -/
def depth_buffer_read (g : GBufferDepthStaging) (x y : Nat) : Rat :=
  match cpu_staging_map g.depth_staging (fun data => data x y) with
  | .ok v => v
  | .error _ => 0

/-- Mirrors `GBuffer::depth_buffer_read_center`. -/
def depth_buffer_read_center (g : GBufferDepthStaging) : Rat :=
  depth_buffer_read g ((g.current_size.1 / 2)) ((g.current_size.2 / 2))

/-! ## Dynamic models (`ecs/render/dynamic_geometry.rs`) -/

/-- The `u16::MAX` sentinel used for "no variant" / "no identifier". -/
def u16_max : Nat := 65535

/-- Mirrors the technique-map entry struct `Unk808072c5` (fields
`technique_count`, `technique_start`, `unk8`; `u16` widths modelled as
`Nat`). -/
structure Unk808072c5 where
  technique_count : Nat
  technique_start : Nat
  unk8 : Nat
deriving DecidableEq

/-- Rust panics reachable from the modelled code, made explicit. -/
inductive PanicKind
  | remainderByZero
  | indexOutOfBounds
  | expectBindTechnique
  | expectBindVariantTechnique
deriving DecidableEq

/-- The render stages named in `draw_wrapped` plus representatives of the
remaining `TfxRenderStage` variants. -/
inductive TfxRenderStage
  | GenerateGbuffer
  | Decals
  | DecalsAdditive
  | Transparents
  | DepthPrepass
  | ShadowGenerate
deriving DecidableEq

/-- A loaded technique as consulted by `draw_wrapped`: whether
`bind_with_channels` succeeds, and whether `used_scopes` contains the
`SKINNING` bit. -/
structure Technique where
  bind_ok : Bool
  used_scopes_skinning : Bool
deriving DecidableEq

/-- Mirrors `SDynamicMeshPart` (the fields `draw_wrapped` reads;
`lod_category.is_highest_detail()` is modelled as a boolean). -/
structure SDynamicMeshPart where
  external_identifier : Nat
  lod_highest_detail : Bool
  variant_shader_index : Nat
  primitive_type : Nat
deriving DecidableEq

/-- Mirrors `SDynamicMesh` (the fields `draw_wrapped` reads;
`get_input_layout_for_stage` and `get_range_for_stage` become function
fields holding the asset-authored per-stage data). -/
structure SDynamicMesh where
  parts : List SDynamicMeshPart
  input_layout_per_stage : TfxRenderStage → Nat
  part_range_per_stage : TfxRenderStage → List Nat

/-- Mirrors `RenderStageSubscriptions` (the subscription bitset of one mesh
plus the `COMPUTE_SKINNING` bit). -/
structure RenderStageSubscriptions where
  is_subscribed : TfxRenderStage → Bool
  compute_skinning : Bool

/-- Mirrors `DynamicModel` (the fields read by `get_variant_technique` and
`draw_wrapped`; technique handles are `Nat`). -/
structure DynamicModel where
  technique_map : List Unk808072c5
  techniques : List Nat
  meshes : List SDynamicMesh
  mesh_stages : List RenderStageSubscriptions
  part_techniques : List (List Nat)
  selected_mesh : Nat
  selected_variant : Nat

/-- Mirrors `DynamicModel::get_variant_technique(index, variant)`.  The sentinel
yields no technique; `technique_map.get` is a checked lookup; but the
`variant % technique_count` remainder and the `self.techniques[...]` index
inside the closure panic on a zero count or an out-of-range index. -/
def get_variant_technique (m : DynamicModel) (index : Nat) (variant : Nat) :
    Except PanicKind (Option Nat) :=
  if index = u16_max then .ok none
  else
    match m.technique_map[index]? with
    | none => .ok none
    | some variant_range =>
      if variant_range.technique_count = 0 then .error .remainderByZero
      else
        match m.techniques[variant_range.technique_start +
            variant % variant_range.technique_count]? with
        | none => .error .indexOutOfBounds
        | some t => .ok (some t)

/-- A `DynamicModel` with an empty technique map (no variant entries),
as produced by `DynamicModel::load` for models without variant
assignments. -/
def no_variant_model : DynamicModel :=
  { technique_map := [], techniques := [], meshes := [], mesh_stages := [],
    part_techniques := [], selected_mesh := 0, selected_variant := 0 }

/-- A model with one technique-map entry `start = 5`, `count = 3` over a
flat technique list of length 8 (handles 10..17). -/
def wrap_model : DynamicModel :=
  { technique_map := [⟨3, 5, 0⟩],
    techniques := [10, 11, 12, 13, 14, 15, 16, 17],
    meshes := [], mesh_stages := [], part_techniques := [],
    selected_mesh := 0, selected_variant := 0 }

/-- A model whose single technique-map entry has `technique_count = 0`. -/
def zero_count_model : DynamicModel :=
  { technique_map := [⟨0, 0, 0⟩], techniques := [],
    meshes := [], mesh_stages := [], part_techniques := [],
    selected_mesh := 0, selected_variant := 0 }

/-- GPU-visible operations issued by `draw_wrapped`, as an event trace.  The
`draw` event is the invocation of the per-part callback `f` (which in
`DynamicModel::draw` issues `DrawIndexed`). -/
inductive DrawEvent
  | setInputLayout (layout : Nat)
  | bindMeshBuffers
  | bindTechnique (handle : Nat)
  | bindVariantTechnique (handle : Nat)
  | setShaderOverride
  | setInputTopology (prim : Nat)
  | draw (part_index : Nat)
deriving DecidableEq

/-- The renderer environment `draw_wrapped` consults: stage toggles and the
two shared technique lookups (`Renderer::get_technique_shared` and
`asset_manager.techniques.get_shared`). -/
structure RendererEnv where
  settings : RendererSettings
  get_technique_shared : Nat → Option Technique
  techniques_get_shared : Nat → Option Technique

/-- The base-technique block of the part loop: `if let Some(technique) =
renderer.get_technique_shared(..)` followed by
`bind_with_channels(..).expect("Failed to bind technique")`.  Returns the
bind events and whether the technique's scopes contain `SKINNING`; a failed
bind is the `expect` panic. -/
def base_technique_bind (r : RendererEnv) (h : Nat) :
    Except PanicKind (List DrawEvent × Bool) :=
  match r.get_technique_shared h with
  | none => .ok ([], false)
  | some t =>
    if t.bind_ok then .ok ([.bindTechnique h], t.used_scopes_skinning)
    else .error .expectBindTechnique

/-- The variant-technique block of the part loop: `if let Some(technique) =
variant_material.and_then(|t| ..get_shared(&t))` followed by
`bind_with_channels(..).expect("Failed to bind variant technique")`. -/
def variant_technique_bind (r : RendererEnv) (variant_material : Option Nat) :
    Except PanicKind (List DrawEvent × Bool) :=
  match variant_material with
  | none => .ok ([], false)
  | some h =>
    match r.techniques_get_shared h with
    | none => .ok ([], false)
    | some t =>
      if t.bind_ok then .ok ([.bindVariantTechnique h], t.used_scopes_skinning)
      else .error .expectBindVariantTechnique

/-- One iteration of the `for part_index in mesh.get_range_for_stage(..)`
loop of `draw_wrapped`: skip on identifier mismatch or non-highest LOD,
resolve the variant technique, bind base then variant technique, set the
vertex-shader override when skinning is required, set the topology, and
invoke the draw callback. -/
def process_part (r : RendererEnv) (m : DynamicModel)
    (stages : RenderStageSubscriptions) (mesh : SDynamicMesh)
    (identifier : Nat) (part_index : Nat) :
    Except PanicKind (List DrawEvent) :=
  match mesh.parts[part_index]? with
  | none => .error .indexOutOfBounds
  | some part =>
    if identifier ≠ u16_max ∧ part.external_identifier ≠ identifier then
      .ok []
    else if part.lod_highest_detail = false then .ok []
    else
      match get_variant_technique m part.variant_shader_index
          m.selected_variant with
      | .error p => .error p
      | .ok variant_material =>
        match m.part_techniques[m.selected_mesh]?.bind
            (fun l => l[part_index]?) with
        | none => .error .indexOutOfBounds
        | some base_handle =>
          match base_technique_bind r base_handle with
          | .error p => .error p
          | .ok (base_events, base_skin) =>
            match variant_technique_bind r variant_material with
            | .error p => .error p
            | .ok (variant_events, variant_skin) =>
              .ok (base_events ++ variant_events ++
                (if stages.compute_skinning || base_skin || variant_skin
                  then [DrawEvent.setShaderOverride] else []) ++
                [DrawEvent.setInputTopology part.primitive_type,
                  DrawEvent.draw part_index])

/-- The part loop of `draw_wrapped` over the stage's part-index range; a
panic in one iteration aborts the whole loop. -/
def draw_parts (r : RendererEnv) (m : DynamicModel)
    (stages : RenderStageSubscriptions) (mesh : SDynamicMesh)
    (identifier : Nat) : List Nat → Except PanicKind (List DrawEvent)
  | [] => .ok []
  | i :: rest =>
    match process_part r m stages mesh identifier i with
    | .error p => .error p
    | .ok evs =>
      match draw_parts r m stages mesh identifier rest with
      | .error p => .error p
      | .ok evs' => .ok (evs ++ evs')

/-- Mirrors `DynamicModel::draw_wrapped`: stage-toggle gating, selected-mesh and
stage-subscription lookup, input-layout/buffer binding, then the part
loop.  The returned trace is what reaches the graphics device. -/
def draw_wrapped (r : RendererEnv) (m : DynamicModel)
    (render_stage : TfxRenderStage) (identifier : Nat) :
    Except PanicKind (List DrawEvent) :=
  if r.settings.stage_transparent = false ∧
      render_stage = TfxRenderStage.Transparents then .ok []
  else if r.settings.stage_decals = false ∧
      render_stage = TfxRenderStage.Decals then .ok []
  else if r.settings.stage_decals_additive = false ∧
      render_stage = TfxRenderStage.DecalsAdditive then .ok []
  else
    match m.meshes[m.selected_mesh]?, m.mesh_stages[m.selected_mesh]? with
    | some mesh, some stages =>
      if stages.is_subscribed render_stage = false then .ok []
      else
        match draw_parts r m stages mesh identifier
            (mesh.part_range_per_stage render_stage) with
        | .error p => .error p
        | .ok evs =>
          .ok (DrawEvent.setInputLayout
              (mesh.input_layout_per_stage render_stage) ::
            DrawEvent.bindMeshBuffers :: evs)
    | _, _ => .error .indexOutOfBounds

/-- A sample environment with all three stage toggles disabled and no
loaded techniques. -/
def toggles_off_env : RendererEnv :=
  { settings := ⟨.High, false, 1, false, false, false⟩,
    get_technique_shared := fun _ => none,
    techniques_get_shared := fun _ => none }

/-- A part with a non-highest LOD category (sentinel variant index). -/
def low_lod_part : SDynamicMeshPart := ⟨0, false, u16_max, 4⟩

/-- A mesh whose only part is `low_lod_part`. -/
def low_lod_mesh : SDynamicMesh :=
  { parts := [low_lod_part],
    input_layout_per_stage := fun _ => 3,
    part_range_per_stage := fun _ => [0] }

/-- A model whose selected mesh is `low_lod_mesh`, subscribed to every
stage. -/
def low_lod_model : DynamicModel :=
  { technique_map := [], techniques := [],
    meshes := [low_lod_mesh],
    mesh_stages := [⟨fun _ => true, false⟩],
    part_techniques := [[]],
    selected_mesh := 0, selected_variant := 0 }

/-- A drawable part passing all per-part filters (highest LOD, sentinel
variant index). -/
def bindfail_part : SDynamicMeshPart := ⟨0, true, u16_max, 4⟩

/-- A mesh whose only part is `bindfail_part`, with base technique handle
42. -/
def bindfail_mesh : SDynamicMesh :=
  { parts := [bindfail_part],
    input_layout_per_stage := fun _ => 0,
    part_range_per_stage := fun _ => [0] }

/-- The model drawing `bindfail_mesh`. -/
def bindfail_model : DynamicModel :=
  { technique_map := [], techniques := [],
    meshes := [bindfail_mesh],
    mesh_stages := [⟨fun _ => true, false⟩],
    part_techniques := [[42]],
    selected_mesh := 0, selected_variant := 0 }

/-- An environment in which technique 42 is loaded but its
`bind_with_channels` fails. -/
def bindfail_env : RendererEnv :=
  { settings := ⟨.High, false, 1, true, true, true⟩,
    get_technique_shared := fun h =>
      if h = 42 then some ⟨false, false⟩ else none,
    techniques_get_shared := fun _ => none }

/-- Witness for the amended C3: a part whose base technique is missing from
the shared cache but whose variant technique binds. -/
def variant_ok_part : SDynamicMeshPart := ⟨0, true, 0, 4⟩

/-- A mesh whose only part is `variant_ok_part`. -/
def variant_ok_mesh : SDynamicMesh :=
  { parts := [variant_ok_part],
    input_layout_per_stage := fun _ => 0,
    part_range_per_stage := fun _ => [0] }

/-- A model with a one-entry technique map resolving variant 0 to handle
7, and base technique handle 42 for the part. -/
def variant_ok_model : DynamicModel :=
  { technique_map := [⟨1, 0, 0⟩], techniques := [7],
    meshes := [variant_ok_mesh],
    mesh_stages := [⟨fun _ => true, false⟩],
    part_techniques := [[42]],
    selected_mesh := 0, selected_variant := 0 }

/-- An environment in which the base technique 42 is not resolvable and the
variant technique 7 binds successfully. -/
def missing_base_env : RendererEnv :=
  { settings := ⟨.High, false, 1, true, true, true⟩,
    get_technique_shared := fun _ => none,
    techniques_get_shared := fun h =>
      if h = 7 then some ⟨true, false⟩ else none }

/-! ### Stable-sort characterisation of the shadow budget (C1) -/

/-! ## Theorems -/

/-- C2: a shadow light with `stationary_needs_update = true` that is selected
by `update_shadow_maps` while the asset loader is busy (`is_idle() = false`)
still has `stationary_needs_update = true` after the scheduling pass, and its
`last_update` has been advanced to the current frame index. -/
theorem C2_stationary_retry_while_streaming (settings : RendererSettings)
    (frame : Nat) (lights : List ShadowLight) (i : Nat) (l : ShadowLight)
    (hq : settings.shadow_quality ≠ .Off) (hm : settings.matcap = false)
    (hget : lights[i]? = some l)
    (hsel : l.id ∈ (scheduled_shadow_lights settings false lights).map (·.id))
    (hflag : l.stationary_needs_update = true) :
    ∃ l', (update_shadow_maps settings frame false lights)[i]? = some l' ∧
      l'.stationary_needs_update = true ∧ l'.last_update = frame := by
  refine ⟨run_selected_light frame false l, ?_, ?_, ?_⟩
  · unfold update_shadow_maps
    rw [if_neg (by simp [hq, hm])]
    simp only [List.getElem?_map, hget, Option.map_some']
    rw [if_pos hsel]
  · simp [run_selected_light, hflag, bind_for_generation]
  · simp [run_selected_light, hflag, bind_for_generation]

/-- Witness for C2 at a concrete one-light scene. -/
theorem C2_stationary_retry_while_streaming_witness :
    ∃ l', (update_shadow_maps ⟨.High, false, 1, true, true, true⟩ 7 false
        [⟨0, 5, true, true⟩])[0]? = some l' ∧
      l'.stationary_needs_update = true ∧ l'.last_update = 7 :=
  C2_stationary_retry_while_streaming ⟨.High, false, 1, true, true, true⟩ 7
    [⟨0, 5, true, true⟩] 0 ⟨0, 5, true, true⟩ (by decide) rfl rfl
    (by simp [scheduled_shadow_lights, collect_shadow_renderers]) rfl

/-- C5: two successive `get_postprocess_rt(true)` calls return the pair with
the roles swapped, source and destination are always distinct, and a call
with `swap_after_use = false` leaves the parity unchanged for the next
caller. -/
theorem C5_postprocess_pingpong_swap (g : GBufferPostprocess)
    (hne : g.postprocess_ping ≠ g.postprocess_pong) :
    ∃ p1 g1 p2 g2,
      get_postprocess_rt g true = some (p1, g1) ∧
      get_postprocess_rt g1 true = some (p2, g2) ∧
      p1.1 = p2.2 ∧ p1.2 = p2.1 ∧ p1 ≠ p2 ∧
      p1.1 ≠ p1.2 ∧ p2.1 ≠ p2.2 ∧
      (∀ pr g', get_postprocess_rt g false = some (pr, g') →
        g'.postprocess_pingpong = g.postprocess_pingpong) := by
  have hne' : g.postprocess_pong ≠ g.postprocess_ping := fun h => hne h.symm
  have hfalse : ∃ r, get_postprocess_rt g false = some (r, g) := by
    cases hpp : g.postprocess_pingpong
    · exact ⟨(g.postprocess_ping, g.postprocess_pong),
        by simp [get_postprocess_rt, hpp, hne]⟩
    · exact ⟨(g.postprocess_pong, g.postprocess_ping),
        by simp [get_postprocess_rt, hpp, hne']⟩
  have hkeep : ∀ pr g', get_postprocess_rt g false = some (pr, g') →
      g'.postprocess_pingpong = g.postprocess_pingpong := by
    intro pr g' h
    obtain ⟨r, hr⟩ := hfalse
    rw [hr] at h
    have hg : g = g' := congrArg Prod.snd (Option.some.inj h)
    rw [← hg]
  cases hpp : g.postprocess_pingpong
  case Ping =>
    refine ⟨(g.postprocess_ping, g.postprocess_pong),
      { g with postprocess_pingpong := .Pong },
      (g.postprocess_pong, g.postprocess_ping),
      { g with postprocess_pingpong := .Ping },
      ?_, ?_, rfl, rfl, ?_, hne, hne',
      fun pr g' h => (hkeep pr g' h).trans hpp⟩
    · simp [get_postprocess_rt, hpp, hne, PingPong.next]
    · simp [get_postprocess_rt, hne', PingPong.next]
    · simp only [ne_eq, Prod.mk.injEq, not_and]
      exact fun h _ => hne h
  case Pong =>
    refine ⟨(g.postprocess_pong, g.postprocess_ping),
      { g with postprocess_pingpong := .Ping },
      (g.postprocess_ping, g.postprocess_pong),
      { g with postprocess_pingpong := .Pong },
      ?_, ?_, rfl, rfl, ?_, hne', hne,
      fun pr g' h => (hkeep pr g' h).trans hpp⟩
    · simp [get_postprocess_rt, hpp, hne', PingPong.next]
    · simp [get_postprocess_rt, hne, PingPong.next]
    · simp only [ne_eq, Prod.mk.injEq, not_and]
      exact fun h _ => hne' h

/-- Witness for C5 on the freshly created g-buffer. -/
theorem C5_postprocess_pingpong_swap_witness :
    ∃ p1 g1 p2 g2,
      get_postprocess_rt gbuffer_create_postprocess true = some (p1, g1) ∧
      get_postprocess_rt g1 true = some (p2, g2) ∧
      p1.1 = p2.2 ∧ p1.2 = p2.1 ∧ p1 ≠ p2 ∧
      p1.1 ≠ p1.2 ∧ p2.1 ≠ p2.2 ∧
      (∀ pr g',
        get_postprocess_rt gbuffer_create_postprocess false = some (pr, g') →
        g'.postprocess_pingpong =
          gbuffer_create_postprocess.postprocess_pingpong) :=
  C5_postprocess_pingpong_swap gbuffer_create_postprocess (by decide)

/-- C6: for an input size with a zero width or height, every surface
allocated by `GBuffer::create` and by `GBuffer::resize` has both dimensions
at least 1, and a clamp diagnostic is emitted during each of the two
operations. -/
theorem C6_zero_size_clamped (w h : Nat) (h0 : w = 0 ∨ h = 0) :
    (∀ a ∈ gbuffer_create_allocations (w, h), 1 ≤ a.width ∧ 1 ≤ a.height) ∧
    (∃ a ∈ gbuffer_create_allocations (w, h), a.warned = true) ∧
    (∀ a ∈ gbuffer_resize_allocations (w, h), 1 ≤ a.width ∧ 1 ≤ a.height) ∧
    (∃ a ∈ gbuffer_resize_allocations (w, h), a.warned = true) := by
  have hc : gbuffer_create_allocations (w, h) =
      gbuffer_create_allocations (0, 0) := by
    rcases h0 with h0 | h0 <;> subst h0 <;>
      simp [gbuffer_create_allocations]
  have hr : gbuffer_resize_allocations (w, h) =
      gbuffer_resize_allocations (0, 0) := by
    rcases h0 with h0 | h0 <;> subst h0 <;>
      simp [gbuffer_resize_allocations]
  rw [hc, hr]
  decide

/-- Witness for C6 at input size (0, 5). -/
theorem C6_zero_size_clamped_witness :
    ((0 : Nat) = 0 ∨ (5 : Nat) = 0) ∧
    ((∀ a ∈ gbuffer_create_allocations (0, 5),
        1 ≤ a.width ∧ 1 ≤ a.height) ∧
      (∃ a ∈ gbuffer_create_allocations (0, 5), a.warned = true) ∧
      (∀ a ∈ gbuffer_resize_allocations (0, 5),
        1 ≤ a.width ∧ 1 ≤ a.height) ∧
      (∃ a ∈ gbuffer_resize_allocations (0, 5), a.warned = true)) :=
  ⟨Or.inl rfl, C6_zero_size_clamped 0 5 (Or.inl rfl)⟩

/-- C10: `depth_buffer_read` never propagates a mapping failure: it returns
0 when the staging map fails and the texel value otherwise, so
`depth_buffer_read_center` (and through it
`depth_buffer_distance_pos_center`) always receives a numeric value. -/
theorem C10_depth_read_never_fails (g : GBufferDepthStaging) (x y : Nat) :
    (g.depth_staging = none → depth_buffer_read g x y = 0) ∧
    (∀ d, g.depth_staging = some d → depth_buffer_read g x y = d x y) ∧
    depth_buffer_read_center g =
      depth_buffer_read g (g.current_size.1 / 2) (g.current_size.2 / 2) := by
  refine ⟨fun hnone => ?_, fun d hsome => ?_, rfl⟩
  · simp [depth_buffer_read, cpu_staging_map, hnone]
  · simp [depth_buffer_read, cpu_staging_map, hsome]

/-- Witness for C10 on a staging buffer whose mapping fails. -/
theorem C10_depth_read_never_fails_witness :
    depth_buffer_read ⟨none, (4, 4)⟩ 3 7 = 0 :=
  (C10_depth_read_never_fails ⟨none, (4, 4)⟩ 3 7).1 rfl

/-- C4 counterexample: on a model with an empty technique map, the
non-sentinel index 0 also yields no technique, so "returns no technique
exactly when index is the sentinel" is false. -/
theorem C4_sentinel_only_counterexample :
    get_variant_technique no_variant_model 0 0 = .ok none ∧
      (0 : Nat) ≠ u16_max :=
  ⟨rfl, by decide⟩

/-- C4 (amended): `get_variant_technique` returns no technique exactly when
the index is the sentinel `u16::MAX` or lies outside the technique map; for
an in-range non-sentinel entry with positive `technique_count` it returns
the flat-list technique at position `technique_start + variant %
technique_count` (wrap-around). -/
theorem C4_variant_resolution (m : DynamicModel) (index variant : Nat) :
    (get_variant_technique m index variant = .ok none ↔
      index = u16_max ∨ m.technique_map.length ≤ index) ∧
    (∀ r, index ≠ u16_max → m.technique_map[index]? = some r →
      0 < r.technique_count →
      ∀ t, m.techniques[r.technique_start +
          variant % r.technique_count]? = some t →
      get_variant_technique m index variant = .ok (some t)) := by
  constructor
  · by_cases hs : index = u16_max
    · simp [get_variant_technique, hs]
    · cases hmap : m.technique_map[index]? with
      | none =>
        simp only [get_variant_technique, hs, if_false, hmap]
        simp [List.getElem?_eq_none_iff.mp hmap, hs]
      | some r =>
        have hlt : index < m.technique_map.length :=
          List.getElem?_eq_some.mp hmap |>.1
        simp only [get_variant_technique, hs, if_false, hmap]
        constructor
        · intro h
          by_cases hc : r.technique_count = 0
          · simp [hc] at h
          · simp only [hc, if_false] at h
            cases ht : m.techniques[r.technique_start +
                variant % r.technique_count]? <;> simp [ht] at h
        · intro h
          rcases h with h | h
          · exact h.elim
          · omega
  · intro r hs hmap hc t ht
    simp [get_variant_technique, hs, hmap, Nat.pos_iff_ne_zero.mp hc, ht]

/-- Witness for the amended C4: with `start = 5`, `count = 3`, variant 3
wraps around to flat-list position 5 (handle 15). -/
theorem C4_variant_resolution_witness :
    get_variant_technique wrap_model 0 3 = .ok (some 15) :=
  (C4_variant_resolution wrap_model 0 3).2 ⟨3, 5, 0⟩ (by decide) rfl
    (by decide) 15 rfl

/-- C9: `get_variant_technique` is partial: a non-sentinel index resolving
to a technique-map entry with `technique_count = 0` panics on the remainder
by zero; and it is total when every entry has a positive count and an
in-range technique span. -/
theorem C9_variant_remainder_by_zero (m : DynamicModel) :
    (∀ index variant r, index ≠ u16_max →
      m.technique_map[index]? = some r → r.technique_count = 0 →
      get_variant_technique m index variant = .error .remainderByZero) ∧
    ((∀ r ∈ m.technique_map, 0 < r.technique_count ∧
        r.technique_start + r.technique_count ≤ m.techniques.length) →
      ∀ index variant, ∃ v,
        get_variant_technique m index variant = .ok v) := by
  constructor
  · intro index variant r hs hmap hc
    simp [get_variant_technique, hs, hmap, hc]
  · intro hpre index variant
    by_cases hs : index = u16_max
    · exact ⟨none, by simp [get_variant_technique, hs]⟩
    · cases hmap : m.technique_map[index]? with
      | none => exact ⟨none, by simp [get_variant_technique, hs, hmap]⟩
      | some r =>
        obtain ⟨hc, hspan⟩ := hpre r (List.getElem?_mem hmap)
        have hidx : r.technique_start + variant % r.technique_count <
            m.techniques.length := by
          have := Nat.mod_lt variant hc
          omega
        refine ⟨some (m.techniques.get ⟨r.technique_start +
            variant % r.technique_count, hidx⟩), ?_⟩
        simp [get_variant_technique, hs, hmap, Nat.pos_iff_ne_zero.mp hc,
          List.getElem?_eq_getElem hidx, List.get_eq_getElem]

/-- Witness for C9: the zero-count entry panics at index 0, variant 7. -/
theorem C9_variant_remainder_by_zero_witness :
    get_variant_technique zero_count_model 0 7 =
      .error .remainderByZero :=
  (C9_variant_remainder_by_zero zero_count_model).1 0 7 ⟨0, 0, 0⟩
    (by decide) rfl rfl

/-- C8: disabling a stage toggle makes `draw_wrapped` for that stage return
`Ok` immediately with no per-entity work and no draw events; each toggle
gates its stage independently of the other toggles. -/
theorem C8_stage_toggle_gating (r : RendererEnv) (m : DynamicModel)
    (identifier : Nat) :
    (r.settings.stage_transparent = false →
      draw_wrapped r m .Transparents identifier = .ok []) ∧
    (r.settings.stage_decals = false →
      draw_wrapped r m .Decals identifier = .ok []) ∧
    (r.settings.stage_decals_additive = false →
      draw_wrapped r m .DecalsAdditive identifier = .ok []) := by
  refine ⟨fun h => ?_, fun h => ?_, fun h => ?_⟩ <;>
    simp [draw_wrapped, h]

/-- Witness for C8 with the transparents toggle disabled. -/
theorem C8_stage_toggle_gating_witness :
    draw_wrapped toggles_off_env no_variant_model .Transparents u16_max =
      .ok [] :=
  (C8_stage_toggle_gating toggles_off_env no_variant_model u16_max).1 rfl

theorem base_technique_bind_no_draw (r : RendererEnv) (h : Nat)
    (evs : List DrawEvent) (s : Bool)
    (hb : base_technique_bind r h = .ok (evs, s)) (i : Nat) :
    DrawEvent.draw i ∉ evs := by
  unfold base_technique_bind at hb
  split at hb
  · simp only [Except.ok.injEq, Prod.mk.injEq] at hb
    rcases hb with ⟨h1, -⟩
    subst h1
    simp
  · split at hb
    · simp only [Except.ok.injEq, Prod.mk.injEq] at hb
      rcases hb with ⟨h1, -⟩
      subst h1
      simp
    · simp at hb

theorem variant_technique_bind_no_draw (r : RendererEnv)
    (vm : Option Nat) (evs : List DrawEvent) (s : Bool)
    (hb : variant_technique_bind r vm = .ok (evs, s)) (i : Nat) :
    DrawEvent.draw i ∉ evs := by
  unfold variant_technique_bind at hb
  split at hb
  · simp only [Except.ok.injEq, Prod.mk.injEq] at hb
    rcases hb with ⟨h1, -⟩
    subst h1
    simp
  · split at hb
    · simp only [Except.ok.injEq, Prod.mk.injEq] at hb
      rcases hb with ⟨h1, -⟩
      subst h1
      simp
    · split at hb
      · simp only [Except.ok.injEq, Prod.mk.injEq] at hb
        rcases hb with ⟨h1, -⟩
        subst h1
        simp
      · simp at hb

theorem process_part_draw_eq (r : RendererEnv) (m : DynamicModel)
    (stages : RenderStageSubscriptions) (mesh : SDynamicMesh)
    (identifier : Nat) (j : Nat) (evs : List DrawEvent)
    (hp : process_part r m stages mesh identifier j = .ok evs)
    (i : Nat) (hi : DrawEvent.draw i ∈ evs) : i = j := by
  unfold process_part at hp
  split at hp
  · simp at hp
  · split at hp
    · simp only [Except.ok.injEq] at hp
      subst hp
      simp at hi
    · split at hp
      · simp only [Except.ok.injEq] at hp
        subst hp
        simp at hi
      · split at hp
        · simp at hp
        · split at hp
          · simp at hp
          · split at hp
            · simp at hp
            · rename_i base_events base_skin hbase
              split at hp
              · simp at hp
              · rename_i variant_events variant_skin hvar
                simp only [Except.ok.injEq] at hp
                subst hp
                simp only [List.mem_append] at hi
                rcases hi with ((h1 | h2) | h3) | h4
                · exact absurd h1 (base_technique_bind_no_draw r _ _ _
                    hbase i)
                · exact absurd h2 (variant_technique_bind_no_draw r _ _ _
                    hvar i)
                · rcases Bool.eq_false_or_eq_true
                      (stages.compute_skinning || base_skin || variant_skin)
                    with hc | hc <;> rw [hc] at h3 <;> simp at h3
                · simp only [List.mem_cons, List.mem_singleton] at h4
                  rcases h4 with h4 | h4 | h4
                  · exact absurd h4 (by simp)
                  · exact DrawEvent.draw.inj h4
                  · exact absurd h4 (by simp)

theorem process_part_skip (r : RendererEnv) (m : DynamicModel)
    (stages : RenderStageSubscriptions) (mesh : SDynamicMesh)
    (identifier : Nat) (i : Nat) (part : SDynamicMeshPart)
    (hpart : mesh.parts[i]? = some part)
    (hskip : (identifier ≠ u16_max ∧ part.external_identifier ≠ identifier) ∨
      part.lod_highest_detail = false) :
    process_part r m stages mesh identifier i = .ok [] := by
  unfold process_part
  rw [hpart]
  rcases hskip with ⟨h1, h2⟩ | h
  · simp [h1, h2]
  · by_cases hid : identifier ≠ u16_max ∧ part.external_identifier ≠
        identifier
    · simp [hid]
    · simp [hid, h]

theorem draw_parts_draw_mem (r : RendererEnv) (m : DynamicModel)
    (stages : RenderStageSubscriptions) (mesh : SDynamicMesh)
    (identifier : Nat) :
    ∀ (range : List Nat) (evs : List DrawEvent),
      draw_parts r m stages mesh identifier range = .ok evs →
      ∀ i, DrawEvent.draw i ∈ evs →
      ∃ evs', process_part r m stages mesh identifier i = .ok evs' ∧
        DrawEvent.draw i ∈ evs'
  | [], evs, h, i, hi => by
    simp only [draw_parts, Except.ok.injEq] at h
    subst h
    simp at hi
  | j :: rest, evs, h, i, hi => by
    unfold draw_parts at h
    split at h
    · simp at h
    · rename_i evs_j hj
      split at h
      · simp at h
      · rename_i evs_rest hrest
        simp only [Except.ok.injEq] at h
        subst h
        rcases List.mem_append.mp hi with h1 | h2
        · have hij := process_part_draw_eq r m stages mesh identifier j
            evs_j hj i h1
          subst hij
          exact ⟨evs_j, hj, h1⟩
        · exact draw_parts_draw_mem r m stages mesh identifier rest
            evs_rest hrest i h2

/-- C7: a part whose external identifier does not match a requested
non-sentinel identifier, or whose LOD category is not highest-detail, is
never drawn: no `draw` event for it appears in the trace of `draw_wrapped`,
for any render stage. -/
theorem C7_part_skip_filters (r : RendererEnv) (m : DynamicModel)
    (render_stage : TfxRenderStage) (identifier : Nat)
    (events : List DrawEvent)
    (hok : draw_wrapped r m render_stage identifier = .ok events)
    (mesh : SDynamicMesh) (hmesh : m.meshes[m.selected_mesh]? = some mesh)
    (i : Nat) (part : SDynamicMeshPart) (hpart : mesh.parts[i]? = some part)
    (hskip : (identifier ≠ u16_max ∧ part.external_identifier ≠ identifier) ∨
      part.lod_highest_detail = false) :
    DrawEvent.draw i ∉ events := by
  unfold draw_wrapped at hok
  split at hok
  · simp only [Except.ok.injEq] at hok
    subst hok
    simp
  · split at hok
    · simp only [Except.ok.injEq] at hok
      subst hok
      simp
    · split at hok
      · simp only [Except.ok.injEq] at hok
        subst hok
        simp
      · split at hok
        · rename_i mesh2 stages hmesh2 hstages
          rw [hmesh] at hmesh2
          have hmesh' := Option.some.inj hmesh2
          subst hmesh'
          split at hok
          · simp only [Except.ok.injEq] at hok
            subst hok
            simp
          · split at hok
            · simp at hok
            · rename_i evs hdp
              simp only [Except.ok.injEq] at hok
              subst hok
              intro hmem
              simp only [List.mem_cons] at hmem
              rcases hmem with h | h | h
              · exact absurd h (by simp)
              · exact absurd h (by simp)
              · obtain ⟨evs', hp, hin⟩ := draw_parts_draw_mem r m stages
                  mesh identifier _ evs hdp i h
                rw [process_part_skip r m stages mesh identifier i part
                  hpart hskip] at hp
                simp only [Except.ok.injEq] at hp
                subst hp
                simp at hin
        · simp at hok

/-- Witness for C7: the non-highest-LOD part is not drawn. -/
theorem C7_part_skip_filters_witness :
    DrawEvent.draw 0 ∉
      [DrawEvent.setInputLayout 3, DrawEvent.bindMeshBuffers] :=
  C7_part_skip_filters toggles_off_env low_lod_model .GenerateGbuffer
    u16_max [DrawEvent.setInputLayout 3, DrawEvent.bindMeshBuffers] rfl
    low_lod_mesh rfl 0 low_lod_part rfl (Or.inr rfl)

/-- C3 counterexample: a failure while binding a part's base technique is
the `expect("Failed to bind technique")` panic: `draw_wrapped` aborts with
an error instead of returning a trace, so the per-entity draw loop does
hard-fail and the variant-technique bind is never attempted. -/
theorem C3_bind_failure_counterexample :
    draw_wrapped bindfail_env bindfail_model .GenerateGbuffer u16_max =
      .error .expectBindTechnique ∧
    ∀ events, draw_wrapped bindfail_env bindfail_model .GenerateGbuffer
      u16_max ≠ .ok events := by
  have h0 : draw_wrapped bindfail_env bindfail_model .GenerateGbuffer
      u16_max = .error .expectBindTechnique := rfl
  exact ⟨h0, fun events h => by rw [h0] at h; exact Except.noConfusion h⟩

/-- C3 (amended): a missing base technique (the shared-technique lookup
returns nothing) is non-fatal: the part is still processed and the
variant-technique bind is still attempted and the part drawn; but a failure
of the bind call itself panics (`expect`), and such a panic aborts the
per-entity part loop. -/
theorem C3_missing_technique_nonfatal (r : RendererEnv) (m : DynamicModel)
    (stages : RenderStageSubscriptions) (mesh : SDynamicMesh) (i : Nat)
    (part : SDynamicMeshPart) (hpart : mesh.parts[i]? = some part)
    (hlod : part.lod_highest_detail = true) (bh : Nat)
    (hbh : m.part_techniques[m.selected_mesh]?.bind (fun l => l[i]?) =
      some bh)
    (vm : Option Nat)
    (hvm : get_variant_technique m part.variant_shader_index
      m.selected_variant = .ok vm) :
    (∀ vh vt, r.get_technique_shared bh = none → vm = some vh →
      r.techniques_get_shared vh = some vt → vt.bind_ok = true →
      ∃ evs, process_part r m stages mesh u16_max i = .ok evs ∧
        DrawEvent.bindVariantTechnique vh ∈ evs ∧
        DrawEvent.draw i ∈ evs) ∧
    (∀ t, r.get_technique_shared bh = some t → t.bind_ok = false →
      process_part r m stages mesh u16_max i =
        .error .expectBindTechnique) ∧
    (∀ p rest, process_part r m stages mesh u16_max i = .error p →
      draw_parts r m stages mesh u16_max (i :: rest) = .error p) := by
  refine ⟨fun vh vt hnone hvh hvt hbind => ?_, fun t hsome hbind => ?_,
    fun p rest herr => ?_⟩
  · subst hvh
    refine ⟨[] ++ [DrawEvent.bindVariantTechnique vh] ++
      (if stages.compute_skinning || false || vt.used_scopes_skinning
        then [DrawEvent.setShaderOverride] else []) ++
      [DrawEvent.setInputTopology part.primitive_type,
        DrawEvent.draw i], ?_, ?_, ?_⟩
    · simp only [process_part, hpart, hlod, hvm, hbh,
        base_technique_bind, hnone, variant_technique_bind, hvt, hbind,
        if_true]
      simp
    · simp only [List.mem_append]
      simp
    · simp only [List.mem_append]
      simp
  · simp only [process_part, hpart, hlod, hvm, hbh,
      base_technique_bind, hsome, hbind]
    simp
  · simp only [draw_parts, herr]

/-- Witness for the amended C3. -/
theorem C3_missing_technique_nonfatal_witness :
    ∃ evs, process_part missing_base_env variant_ok_model
        ⟨fun _ => true, false⟩ variant_ok_mesh u16_max 0 = .ok evs ∧
      DrawEvent.bindVariantTechnique 7 ∈ evs ∧ DrawEvent.draw 0 ∈ evs :=
  (C3_missing_technique_nonfatal missing_base_env variant_ok_model
    ⟨fun _ => true, false⟩ variant_ok_mesh 0 variant_ok_part rfl rfl 42 rfl
    (some 7) rfl).1 7 ⟨true, false⟩ rfl rfl rfl rfl

theorem shadowLE_trans (a b c : ShadowLight) :
    shadowLE a b → shadowLE b c → shadowLE a c := by
  simp only [shadowLE, decide_eq_true_eq]
  omega

theorem shadowLE_total (a b : ShadowLight) :
    shadowLE a b || shadowLE b a := by
  simp only [shadowLE, Bool.or_eq_true, decide_eq_true_eq]
  omega

theorem enumLE_shadowLE (a b : Nat × ShadowLight) :
    List.enumLE shadowLE a b = true ↔
      a.2.last_update < b.2.last_update ∨
        (a.2.last_update = b.2.last_update ∧ a.1 ≤ b.1) := by
  simp only [List.enumLE, shadowLE]
  by_cases h1 : a.2.last_update ≤ b.2.last_update <;>
    by_cases h2 : b.2.last_update ≤ a.2.last_update <;>
    simp [h1, h2] <;> omega

theorem countP_shadow_beats_sorted (i : Nat) (x : ShadowLight)
    (u v : List (Nat × ShadowLight))
    (hsorted : (u ++ (i, x) :: v).Pairwise
      (fun a b => List.enumLE shadowLE a b = true))
    (hfst : ((u ++ (i, x) :: v).map Prod.fst).Nodup) :
    (u ++ (i, x) :: v).countP
      (fun p => decide (shadow_beats p.1 p.2 i x)) = u.length := by
  rw [List.map_append, List.map_cons, List.nodup_append] at hfst
  obtain ⟨-, hnd2, hdisj⟩ := hfst
  have hiu : i ∉ u.map Prod.fst :=
    fun hi => hdisj hi (List.mem_cons_self _ _)
  have hiv : i ∉ v.map Prod.fst := (List.nodup_cons.mp hnd2).1
  rw [List.pairwise_append] at hsorted
  obtain ⟨-, hpc, hcross⟩ := hsorted
  rw [List.countP_append, List.countP_cons]
  have hu : (u.countP fun p => decide (shadow_beats p.1 p.2 i x)) =
      u.length := by
    rw [List.countP_eq_length]
    intro q hq
    have hle := hcross q hq (i, x) (List.mem_cons_self _ _)
    rw [enumLE_shadowLE] at hle
    dsimp only at hle
    have hne : q.1 ≠ i :=
      fun h => hiu (h ▸ List.mem_map_of_mem Prod.fst hq)
    simp only [decide_eq_true_eq, shadow_beats]
    omega
  have hself : (decide (shadow_beats i x i x)) = false := by
    simp [shadow_beats]
  have hv : (v.countP fun p => decide (shadow_beats p.1 p.2 i x)) = 0 := by
    rw [List.countP_eq_zero]
    intro q hq
    have hle := List.rel_of_pairwise_cons hpc hq
    rw [enumLE_shadowLE] at hle
    dsimp only at hle
    have hne : q.1 ≠ i :=
      fun h => hiv (h ▸ List.mem_map_of_mem Prod.fst hq)
    simp only [decide_eq_true_eq, shadow_beats]
    omega
  rw [hu, hv, hself]
  simp

theorem mem_take_append_cons {α : Type} (K : Nat) (a : α)
    (u v : List α) (ha : a ∉ u) :
    a ∈ (u ++ a :: v).take K ↔ u.length < K := by
  constructor
  · intro hmem
    by_contra hK
    rw [List.take_append_of_le_length (by omega)] at hmem
    exact ha (List.take_subset _ _ hmem)
  · intro hK
    rw [List.take_append_eq_append_take]
    refine List.mem_append.mpr (Or.inr ?_)
    rw [List.take_cons (by omega)]
    exact List.mem_cons_self _ _

theorem enum_mem_id_eq (lights : List ShadowLight)
    (hids : (lights.map (fun l => l.id)).Nodup) (i : Nat) (x : ShadowLight)
    (hget : lights[i]? = some x) (p : Nat × ShadowLight)
    (hp : p ∈ lights.enum) (heq : p.2.id = x.id) : p = (i, x) := by
  obtain ⟨j, y⟩ := p
  have hp' : lights[j]? = some y := List.mk_mem_enum_iff_getElem?.mp hp
  have hj : j < lights.length := (List.getElem?_eq_some.mp hp').1
  have hi : i < lights.length := (List.getElem?_eq_some.mp hget).1
  have hmapj : (lights.map (fun l => l.id))[j]? = some x.id := by
    rw [List.getElem?_map, hp', Option.map_some']
    exact congrArg some heq
  have hmapi : (lights.map (fun l => l.id))[i]? = some x.id := by
    rw [List.getElem?_map, hget, Option.map_some']
  have hlen : lights.length = (lights.map (fun l => l.id)).length := by
    simp
  rcases Nat.lt_trichotomy j i with h | h | h
  · exact absurd (hmapj.trans hmapi.symm)
      (List.nodup_iff_getElem?_ne_getElem?.mp hids j i h (hlen ▸ hi))
  · subst h
    rw [hp'] at hget
    rw [Option.some.inj hget]
  · exact absurd (hmapi.trans hmapj.symm)
      (List.nodup_iff_getElem?_ne_getElem?.mp hids i j h (hlen ▸ hj))

theorem shadow_selected_iff (lights : List ShadowLight)
    (hids : (lights.map (fun l => l.id)).Nodup) (K i : Nat)
    (x : ShadowLight) (hget : lights[i]? = some x) :
    x.id ∈ ((lights.mergeSort shadowLE).take K).map (fun l => l.id) ↔
      shadow_rank lights i x < K := by
  have hmapEq : ((lights.enum).mergeSort (List.enumLE shadowLE)).map
      (fun p => p.2) = lights.mergeSort shadowLE := List.mergeSort_enum
  have hperm : List.Perm ((lights.enum).mergeSort (List.enumLE shadowLE))
      lights.enum := List.mergeSort_perm _ _
  have hsorted := List.sorted_mergeSort
    (List.enumLE_trans shadowLE_trans) (List.enumLE_total shadowLE_total)
    lights.enum
  have hfst : (((lights.enum).mergeSort
      (List.enumLE shadowLE)).map Prod.fst).Nodup := by
    have hp2 : List.Perm (((lights.enum).mergeSort
        (List.enumLE shadowLE)).map Prod.fst)
        ((lights.enum).map Prod.fst) := hperm.map _
    rw [List.enum_map_fst] at hp2
    exact hp2.nodup_iff.mpr (List.nodup_range _)
  have hmem : (i, x) ∈ (lights.enum).mergeSort (List.enumLE shadowLE) :=
    List.mem_mergeSort.mpr (List.mk_mem_enum_iff_getElem?.mpr hget)
  obtain ⟨u, v, hsplit⟩ := List.append_of_mem hmem
  have hnotin : (i, x) ∉ u := by
    intro hin
    rw [hsplit, List.map_append, List.nodup_append] at hfst
    exact hfst.2.2 (List.mem_map_of_mem Prod.fst hin) (by simp)
  have hrank : shadow_rank lights i x = u.length := by
    unfold shadow_rank
    rw [← List.Perm.countP_eq _ hperm, hsplit]
    exact countP_shadow_beats_sorted i x u v (hsplit ▸ hsorted)
      (hsplit ▸ hfst)
  rw [← hmapEq, ← List.map_take, List.map_map]
  constructor
  · intro hmem'
    obtain ⟨p, hpK, hpid⟩ := List.mem_map.mp hmem'
    have hp' : p ∈ lights.enum :=
      hperm.mem_iff.mp (List.take_subset _ _ hpK)
    have hpe : p = (i, x) := enum_mem_id_eq lights hids i x hget p hp' hpid
    subst hpe
    rw [hrank]
    exact (mem_take_append_cons K (i, x) u v hnotin).mp (hsplit ▸ hpK)
  · intro hlt
    rw [hrank] at hlt
    refine List.mem_map.mpr ⟨(i, x), ?_, rfl⟩
    rw [hsplit]
    exact (mem_take_append_cons K (i, x) u v hnotin).mpr hlt

/-- C1: with every shadow light visible, distinct entity ids, and a budget
`K = shadow_updates_per_frame` smaller than the number of lights,
`update_shadow_maps` schedules exactly `K` lights; the light at collection
position `i` is updated (replaced by `run_selected_light`, which sets its
`last_update` to the current frame) precisely when fewer than `K` lights
beat it — a smaller `last_update`, or an equal `last_update` at an earlier
collection position — and every other light is left unchanged. -/
theorem C1_budget_selects_oldest_k (settings : RendererSettings)
    (frame : Nat) (idle : Bool) (lights : List ShadowLight)
    (hq : settings.shadow_quality ≠ .Off) (hm : settings.matcap = false)
    (hvis : ∀ l ∈ lights, l.visible = true)
    (hids : (lights.map (fun l => l.id)).Nodup)
    (hK : settings.shadow_updates_per_frame < lights.length)
    (i : Nat) (x : ShadowLight) (hget : lights[i]? = some x) :
    (scheduled_shadow_lights settings idle lights).length =
      settings.shadow_updates_per_frame ∧
    (update_shadow_maps settings frame idle lights)[i]? =
      some (if shadow_rank lights i x < settings.shadow_updates_per_frame
        then run_selected_light frame idle x else x) ∧
    (run_selected_light frame idle x).last_update = frame := by
  have hcollect : collect_shadow_renderers idle lights = lights :=
    List.filter_eq_self.mpr (fun l hl => by simp [hvis l hl])
  refine ⟨?_, ?_, ?_⟩
  · unfold scheduled_shadow_lights
    rw [hcollect, List.length_take, List.length_mergeSort]
    omega
  · unfold update_shadow_maps
    rw [if_neg (by simp [hq, hm])]
    simp only [List.getElem?_map, hget, Option.map_some']
    have hiff := shadow_selected_iff lights hids
      settings.shadow_updates_per_frame i x hget
    unfold scheduled_shadow_lights
    rw [hcollect]
    by_cases hr : shadow_rank lights i x < settings.shadow_updates_per_frame
    · rw [if_pos (hiff.mpr hr), if_pos hr]
    · rw [if_neg (fun hmem => hr (hiff.mp hmem)), if_neg hr]
  · by_cases hs : x.stationary_needs_update <;> cases idle <;>
      simp [run_selected_light, bind_for_generation, hs]

/-- Witness for C1: two visible lights with distinct ids, budget 1; the
light with the larger `last_update` has rank 1 and is left unchanged. -/
theorem C1_budget_selects_oldest_k_witness :
    (scheduled_shadow_lights ⟨.High, false, 1, true, true, true⟩ true
        [⟨0, 5, false, true⟩, ⟨1, 3, false, true⟩]).length = 1 ∧
    (update_shadow_maps ⟨.High, false, 1, true, true, true⟩ 9 true
        [⟨0, 5, false, true⟩, ⟨1, 3, false, true⟩])[0]? =
      some (if shadow_rank [⟨0, 5, false, true⟩, ⟨1, 3, false, true⟩] 0
          ⟨0, 5, false, true⟩ < 1
        then run_selected_light 9 true ⟨0, 5, false, true⟩
        else ⟨0, 5, false, true⟩) ∧
    (run_selected_light 9 true ⟨0, 5, false, true⟩).last_update = 9 :=
  C1_budget_selects_oldest_k ⟨.High, false, 1, true, true, true⟩ 9 true
    [⟨0, 5, false, true⟩, ⟨1, 3, false, true⟩] (by decide) rfl (by decide)
    (by decide) (by decide) 0 ⟨0, 5, false, true⟩ rfl

end Alkahest

